import Mathlib

/-!
Verification of the Qallm desktop front-ends (document-extraction UI).

The repository holds three near-duplicate GUI shells around an external
extraction pipeline.  This development shallowly embeds the coordination
logic of those shells:

* the results-table renderer `update_results_tree`
  (pyqt6-document-extraction-ui.py lines 284-319, completed-ui-code.py
  lines 1-35),
* the Start-click validation `start_processing`
  (pyqt6-document-extraction-ui.py lines 321-345),
* the worker body `process_data` as an event trace
  (pyqt6-document-extraction-ui.py lines 347-409),
* the input-file chooser `browse_input_file` with faithful models of the
  POSIX path helpers it calls
  (pyqt6-document-extraction-ui.py lines 231-251).

Python dictionaries with optional keys are embedded as structures of
`Option` fields (`none` = key absent); values that the UI only ever
stringifies are embedded as `String`.
-/

/-- Embeds the `extraction` sub-dictionary of a per-document result:
keys `value`, `found`, `confidence`, each possibly absent. -/
structure Extraction where
  value : Option String
  found : Option Bool
  confidence : Option String
  deriving Repr, DecidableEq

/-- Embeds one per-document result dictionary: keys `document_path`,
`success`, `extraction`, `error`, each possibly absent. -/
structure DocResult where
  document_path : Option String
  success : Option Bool
  extraction : Option Extraction
  error : Option String
  deriving Repr, DecidableEq

/-- Embeds one per-element result dictionary: keys `element_name` and
`document_results`. -/
structure ElementResult where
  element_name : Option String
  document_results : Option (List DocResult)
  deriving Repr, DecidableEq

/-- Embeds the top-level result dictionary returned by
`DataProcessor.process_excel`: keys `success`, `error`, `results`. -/
structure ExtractionResults where
  success : Option Bool
  error : Option String
  results : Option (List ElementResult)
  deriving Repr, DecidableEq

/-- One rendered row of the results table: the five columns set by
`update_results_tree` (ID, Element, Document, Extracted Value,
Confidence).  The ID column is `str(row_id)`; we keep the counter as a
`Nat`. -/
structure Row where
  id : Nat
  element : String
  document : String
  value : String
  confidence : String
  deriving Repr, DecidableEq

/-- Index of the last occurrence of `c` in `cs` (Python `str.rfind`),
`none` when absent. -/
def rfindIdx (c : Char) (cs : List Char) : Option Nat :=
  match (cs.reverse.findIdx? (· = c)) with
  | none => none
  | some j => some (cs.length - 1 - j)

/-- Embeds `os.path.basename` (POSIX): the part of the path after the
last slash. -/
def basename (p : String) : String :=
  match rfindIdx '/' p.data with
  | none => p
  | some i => ⟨p.data.drop (i + 1)⟩

/-- Embeds `os.path.dirname` (POSIX): everything up to the last slash,
with trailing slashes stripped unless the head is all slashes. -/
def dirname (p : String) : String :=
  match rfindIdx '/' p.data with
  | none => ""
  | some i =>
    let head := p.data.take (i + 1)
    if head.all (· = '/') then ⟨head⟩
    else ⟨(head.reverse.dropWhile (· = '/')).reverse⟩

/-- Embeds `os.path.splitext` (POSIX): split at the last dot of the
final path component, unless that component consists only of leading
dots up to the split point. -/
def splitext (p : String) : String × String :=
  let cs := p.data
  match rfindIdx '.' cs with
  | none => (p, "")
  | some di =>
    let keep : Bool :=
      match rfindIdx '/' cs with
      | none => ((cs.take di).any (· ≠ '.'))
      | some si =>
        if si < di then (((cs.take di).drop (si + 1)).any (· ≠ '.'))
        else false
    if keep then (⟨cs.take di⟩, ⟨cs.drop di⟩) else (p, "")

/-- Embeds `os.path.join` (POSIX) for two components: an absolute
second component replaces the first; otherwise a separator is inserted
unless the first is empty or already ends with one. -/
def joinPath (a b : String) : String :=
  if b.data.head? = some '/' then b
  else if a = "" ∨ a.data.getLast? = some '/' then a ++ b
  else a ++ "/" ++ b

/-- Embeds the per-document body of `update_results_tree`
(pyqt6-document-extraction-ui.py lines 296-314): builds one table row
for document result `d` under element name `elementName`, using the
running counter `rowId`.  The guard mirrors
`doc_result.get("success", False) and "extraction" in doc_result`. -/
def renderDocRow (rowId : Nat) (elementName : String) (d : DocResult) : Row :=
  let docPath := basename (d.document_path.getD "")
  match d.success.getD false, d.extraction with
  | true, some extraction =>
    { id := rowId, element := elementName, document := docPath,
      value := extraction.value.getD "N/A",
      confidence := extraction.confidence.getD "N/A" }
  | true, none =>
    { id := rowId, element := elementName, document := docPath,
      value := "ERROR", confidence := "N/A" }
  | false, _ =>
    { id := rowId, element := elementName, document := docPath,
      value := "ERROR", confidence := "N/A" }

/-- Embeds the inner loop of `update_results_tree`: one row per document
result, incrementing the counter by one per row. -/
def renderDocs (rowId : Nat) (elementName : String) : List DocResult → List Row
  | [] => []
  | d :: ds => renderDocRow rowId elementName d :: renderDocs (rowId + 1) elementName ds

/-- Embeds the outer loop of `update_results_tree`: elements in input
order, the counter carried across elements. -/
def renderElements (rowId : Nat) : List ElementResult → List Row
  | [] => []
  | e :: es =>
    renderDocs rowId (e.element_name.getD "") (e.document_results.getD []) ++
      renderElements (rowId + (e.document_results.getD []).length) es

/-- Embeds `update_results_tree` (pyqt6-document-extraction-ui.py lines
284-319): the tree is cleared and rebuilt, so the final table contents
are exactly the rows produced by the nested traversal starting the
counter at 1. -/
def update_results_tree (res : ExtractionResults) : List Row :=
  renderElements 1 (res.results.getD [])

/-- Specification-side flattening: the (element name, document result)
pairs in element order then document order, with the same dictionary
defaults the code uses. -/
def flatDocs (res : ExtractionResults) : List (String × DocResult) :=
  ((res.results.getD []).map fun e =>
    (e.document_results.getD []).map fun d => (e.element_name.getD "", d)).flatten

/-- Specification-side numbering: assign consecutive counter values
starting at `k` to a flattened list of (element name, document result)
pairs, rendering each with `renderDocRow`. -/
def numberRows (k : Nat) : List (String × DocResult) → List Row
  | [] => []
  | nd :: rest => renderDocRow k nd.1 nd.2 :: numberRows (k + 1) rest

theorem renderDocRow_id (k : Nat) (n : String) (d : DocResult) :
    (renderDocRow k n d).id = k := by
  unfold renderDocRow
  rcases d.success.getD false with _ | _ <;> rcases d.extraction with _ | _ <;> rfl

theorem numberRows_length (k : Nat) (l : List (String × DocResult)) :
    (numberRows k l).length = l.length := by
  induction l generalizing k with
  | nil => rfl
  | cons nd rest ih => simp [numberRows, ih]

theorem numberRows_append (k : Nat) (xs ys : List (String × DocResult)) :
    numberRows k (xs ++ ys) = numberRows k xs ++ numberRows (k + xs.length) ys := by
  induction xs generalizing k with
  | nil => simp [numberRows]
  | cons nd rest ih =>
    show renderDocRow k nd.1 nd.2 :: numberRows (k + 1) (rest ++ ys) =
      renderDocRow k nd.1 nd.2 ::
        (numberRows (k + 1) rest ++ numberRows (k + (rest.length + 1)) ys)
    rw [ih (k + 1)]
    have h : k + 1 + rest.length = k + (rest.length + 1) := by omega
    rw [h]

theorem renderDocs_eq_numberRows (name : String) (ds : List DocResult) (k : Nat) :
    renderDocs k name ds = numberRows k (ds.map fun d => (name, d)) := by
  induction ds generalizing k with
  | nil => rfl
  | cons d rest ih => simp [renderDocs, numberRows, ih (k + 1)]

theorem renderElements_eq_numberRows (es : List ElementResult) (k : Nat) :
    renderElements k es =
      numberRows k ((es.map fun e =>
        (e.document_results.getD []).map fun d => (e.element_name.getD "", d)).flatten) := by
  induction es generalizing k with
  | nil => rfl
  | cons e rest ih =>
    simp only [renderElements, List.map_cons, List.flatten_cons, numberRows_append,
      renderDocs_eq_numberRows, ih]
    congr 2
    simp

theorem numberRows_map_id (k : Nat) (l : List (String × DocResult)) :
    (numberRows k l).map Row.id = List.range' k l.length := by
  induction l generalizing k with
  | nil => rfl
  | cons nd rest ih =>
    simp [numberRows, List.range', renderDocRow_id, ih (k + 1)]

/-- C1: rendering a result produces exactly one row per document result,
in element order then document order with a single run-global counter:
the table equals the flattened (element, document) sequence numbered
consecutively from 1, the ID column reads 1..ΣMi, and the row count is
ΣMi. -/
theorem C1_results_table_rows (res : ExtractionResults) :
    update_results_tree res = numberRows 1 (flatDocs res) ∧
    (update_results_tree res).map Row.id = List.range' 1 (flatDocs res).length ∧
    (update_results_tree res).length =
      ((res.results.getD []).map fun e => (e.document_results.getD []).length).sum := by
  refine ⟨?_, ?_, ?_⟩
  · exact renderElements_eq_numberRows _ 1
  · unfold update_results_tree
    rw [renderElements_eq_numberRows]
    exact numberRows_map_id 1 _
  · unfold update_results_tree
    rw [renderElements_eq_numberRows, numberRows_length, List.length_flatten, List.map_map]
    have hf : (List.length ∘ fun e : ElementResult =>
        List.map (fun d => (e.element_name.getD "", d)) (e.document_results.getD [])) =
        fun e : ElementResult => (e.document_results.getD []).length := by
      funext e
      simp [Function.comp]
    rw [hf]

/-- C6: a document result whose success flag is false renders as value
"ERROR" and confidence "N/A", whether or not an extraction is present. -/
theorem C6_failed_doc_renders_error (k : Nat) (n : String) (d : DocResult)
    (h : d.success = some false) :
    (renderDocRow k n d).value = "ERROR" ∧ (renderDocRow k n d).confidence = "N/A" := by
  unfold renderDocRow
  rw [h]
  rcases d.extraction with _ | _ <;> exact ⟨rfl, rfl⟩

/-- Witness for C6 at the spec's example document `/a/inv2.xlsx`, with an
extraction dictionary present to exercise the "regardless" clause. -/
theorem C6_failed_doc_renders_error_witness :
    (renderDocRow 2 "Invoice Date"
      { document_path := some "/a/inv2.xlsx", success := some false,
        extraction := some { value := some "2024-01-05", found := some true,
                             confidence := some "0.92" },
        error := some "parse failed" }).value = "ERROR" ∧
    (renderDocRow 2 "Invoice Date"
      { document_path := some "/a/inv2.xlsx", success := some false,
        extraction := some { value := some "2024-01-05", found := some true,
                             confidence := some "0.92" },
        error := some "parse failed" }).confidence = "N/A" :=
  C6_failed_doc_renders_error 2 "Invoice Date" _ rfl

/-- C10: a document result with success true but no extraction key also
renders as value "ERROR" and confidence "N/A": displaying a value needs
both the success flag and the extraction key. -/
theorem C10_success_without_extraction_renders_error (k : Nat) (n : String)
    (d : DocResult) (h1 : d.success = some true) (h2 : d.extraction = none) :
    (renderDocRow k n d).value = "ERROR" ∧ (renderDocRow k n d).confidence = "N/A" := by
  unfold renderDocRow
  rw [h1, h2]
  exact ⟨rfl, rfl⟩

/-- Witness for C10 at a concrete successful document result that lacks
the extraction key. -/
theorem C10_success_without_extraction_renders_error_witness :
    (renderDocRow 1 "Invoice Date"
      { document_path := some "/a/inv3.xlsx", success := some true,
        extraction := none, error := none }).value = "ERROR" ∧
    (renderDocRow 1 "Invoice Date"
      { document_path := some "/a/inv3.xlsx", success := some true,
        extraction := none, error := none }).confidence = "N/A" :=
  C10_success_without_extraction_renders_error 1 "Invoice Date" _ rfl rfl

/-- Arguments of a `LocalLLMProcessor(...)` constructor call; `use_8bit`
is `none` when the call omits that keyword argument. -/
structure LLMCtorArgs where
  model_name : String
  use_8bit : Option Bool
  deriving Repr, DecidableEq

/-- UI-side state read and written by `start_processing` and read by the
worker: the stored file paths, the model dropdown selection, the 8-bit
checkbox, the Start/Stop button enabled flags, the progress bar value and
the rendered rows. -/
structure UIState where
  input_file_path : Option String
  output_file_path : Option String
  selected_model : String
  use_8bit : Bool
  startEnabled : Bool
  stopEnabled : Bool
  progress : Nat
  resultsRows : List Row
  deriving Repr, DecidableEq

/-- Embeds the PyQt6 constructor call
`LocalLLMProcessor(model_name=model_name, use_8bit=use_8bit)`
(pyqt6-document-extraction-ui.py lines 355-356): the model dropdown
value together with the 8-bit checkbox state. -/
def qtProcessorCtorArgs (s : UIState) : LLMCtorArgs :=
  { model_name := s.selected_model, use_8bit := some s.use_8bit }

/-- UI state of the Tkinter variant read by its worker. -/
structure TkUIState where
  selected_model : String
  use_8bit : Bool
  deriving Repr, DecidableEq

/-- Embeds the Tkinter constructor call
`LocalLLMProcessor(model_name=model_name)` (completed-ui-code.py line
69): only the model name is passed; the `use_8bit` checkbox declared in
extraction-system-ui.py lines 84-86 is never read. -/
def tkProcessorCtorArgs (s : TkUIState) : LLMCtorArgs :=
  { model_name := s.selected_model, use_8bit := none }

/-- Python truthiness test `not x` for an optional string: true when the
value is absent or the empty string. -/
def pyFalsy : Option String → Bool
  | none => true
  | some s => s = ""

/-- Rendering of an optional string inside a Python f-string: `None`
prints as "None". -/
def pyStr : Option String → String
  | none => "None"
  | some s => s

/-- Observable actions of the UI shell, in program order.  Dialog,
render, button and row-clearing events are direct widget operations;
progress and log events of the PyQt6 variant travel through signals
(see `marshaled`). -/
inductive Event where
  | progress (v : Nat)
  | logInfo (msg : String)
  | logError (msg : String)
  | dialogError (title msg : String)
  | dialogInfo (title msg : String)
  | processEvents
  | llmCtor (args : LLMCtorArgs)
  | renderResults (res : ExtractionResults)
  | exportCall (res : ExtractionResults) (path : String)
  | setStartEnabled (b : Bool)
  | setStopEnabled (b : Bool)
  | clearRows
  deriving Repr, DecidableEq

/-- Classifies events that mutate UI widgets (progress bar, log pane,
dialogs, results tree, buttons, row clearing); constructor calls,
exporter calls and `processEvents` are not widget mutations. -/
def isUIMutation : Event → Bool
  | .progress _ => true
  | .logInfo _ => true
  | .logError _ => true
  | .dialogError _ _ => true
  | .dialogInfo _ _ => true
  | .renderResults _ => true
  | .setStartEnabled _ => true
  | .setStopEnabled _ => true
  | .clearRows => true
  | .processEvents => false
  | .llmCtor _ => false
  | .exportCall _ _ => false

/-- How each worker-issued event reaches the UI in the PyQt6 variant:
progress goes through the `progress_update` pyqtSignal (lines 41, 71,
354) and log lines through the `LogHandler.new_log` pyqtSignal (lines
24-36, 74-76), both thread-safe queued deliveries; `QMessageBox`
dialogs (lines 373, 392, 395, 404), `update_results_tree` (line 384)
and `setEnabled` on the Start/Stop buttons (lines 375-376, 408-409)
are called directly from the worker thread. -/
def marshaled : Event → Bool
  | .progress _ => true
  | .logInfo _ => true
  | .logError _ => true
  | .dialogError _ _ => false
  | .dialogInfo _ _ => false
  | .renderResults _ => false
  | .setStartEnabled _ => false
  | .setStopEnabled _ => false
  | .clearRows => false
  | .processEvents => false
  | .llmCtor _ => false
  | .exportCall _ _ => false

/-- Behaviour of the external collaborators during one run: whether each
constructor raises (with the exception message), and the outcomes of
`process_excel` and `export_to_excel` (`Except.error` = the call
raises). -/
structure Env where
  llmInit : Option String
  dataInit : Option String
  processExcel : Except String ExtractionResults
  exportExcel : Except String Bool
  deriving Repr

/-- Embeds `start_processing` (pyqt6-document-extraction-ui.py lines
321-345): validate the stored paths; on a validation failure log, show
an error dialog and return without touching the rest of the UI; on
success disable Start, enable Stop, reset progress, clear results and
spawn the worker.  Returns the new state, whether a worker thread was
spawned, and the emitted events. -/
def start_processing (s : UIState) (pathExists : String → Bool) :
    UIState × Bool × List Event :=
  if pyFalsy s.input_file_path || !pathExists (s.input_file_path.getD "") then
    (s, false, [.logError "Input file not found or not specified",
                .dialogError "Input Error" "Please select a valid input Excel file"])
  else if pyFalsy s.output_file_path then
    (s, false, [.logError "Output file not specified",
                .dialogError "Output Error" "Please specify an output Excel file"])
  else
    ({ s with startEnabled := false, stopEnabled := true, progress := 0,
              resultsRows := [] },
     true,
     [.setStartEnabled false, .setStopEnabled true, .progress 0,
      .clearRows, .progress 0])

/-- Embeds the `try` body of `process_data`
(pyqt6-document-extraction-ui.py lines 349-399) as the events it emits,
paired with `some msg` when an exception with message `msg` escapes the
body.  Accessing `results["success"]` on a dictionary without that key
raises a `KeyError`. -/
def tryBody (s : UIState) (env : Env) : List Event × Option String :=
  let evs : List Event :=
    [.logInfo ("Initializing LLM processor with model: " ++ s.selected_model),
     .progress 10,
     .llmCtor (qtProcessorCtorArgs s)]
  match env.llmInit with
  | some msg => (evs, some msg)
  | none =>
    let evs := evs ++ [.logInfo "Initializing data processor", .progress 20]
    match env.dataInit with
    | some msg => (evs, some msg)
    | none =>
      let evs := evs ++
        [.logInfo ("Processing Excel file: " ++ pyStr s.input_file_path),
         .progress 30]
      match env.processExcel with
      | .error msg => (evs, some msg)
      | .ok results =>
        match results.success with
        | none => (evs, some "KeyError: 'success'")
        | some false =>
          let error_msg := results.error.getD "Unknown error"
          (evs ++
            [.logError ("Failed to process Excel file: " ++ error_msg),
             .processEvents,
             .dialogError "Processing Error"
               ("Failed to process Excel file: " ++ error_msg),
             .progress 0,
             .setStartEnabled true,
             .setStopEnabled false], none)
        | some true =>
          let evs := evs ++
            [.progress 80, .processEvents, .renderResults results,
             .logInfo ("Exporting results to: " ++ pyStr s.output_file_path),
             .exportCall results (pyStr s.output_file_path)]
          match env.exportExcel with
          | .error msg => (evs, some msg)
          | .ok export_success =>
            let evs := evs ++
              (if !export_success then
                [.logError "Failed to export results",
                 .dialogError "Export Error"
                   "Failed to export results to Excel file"]
              else
                [.logInfo "Processing completed successfully",
                 .dialogInfo "Success"
                   ("Processing completed successfully. Results exported to " ++
                     pyStr s.output_file_path)])
            (evs ++ [.progress 100], none)

/-- Embeds `process_data` (pyqt6-document-extraction-ui.py lines
347-409): the `try` body, then the `except` handler when an exception
escaped, then the unconditional `finally` block that re-enables Start
and disables Stop. -/
def process_data (s : UIState) (env : Env) : List Event :=
  let r := tryBody s env
  let evs :=
    match r.2 with
    | some msg =>
      r.1 ++ [.logError ("Error in processing thread: " ++ msg),
              .processEvents,
              .dialogError "Processing Error" ("An error occurred: " ++ msg)]
    | none => r.1
  evs ++ [.setStartEnabled true, .setStopEnabled false]

/-- The enabled flags of the Start and Stop buttons. -/
structure ButtonState where
  startEnabled : Bool
  stopEnabled : Bool
  deriving Repr, DecidableEq

/-- Effect of one event on the Start/Stop button flags. -/
def applyEvent (b : ButtonState) : Event → ButtonState
  | .setStartEnabled v => { b with startEnabled := v }
  | .setStopEnabled v => { b with stopEnabled := v }
  | _ => b

/-- Button flags after a sequence of events. -/
def runButtons (b : ButtonState) (evs : List Event) : ButtonState :=
  evs.foldl applyEvent b

/-- The progress-bar values set by a sequence of events, in order. -/
def progressValues (evs : List Event) : List Nat :=
  evs.filterMap fun e =>
    match e with
    | .progress v => some v
    | _ => none

theorem progressValues_append (xs ys : List Event) :
    progressValues (xs ++ ys) = progressValues xs ++ progressValues ys :=
  List.filterMap_append xs ys _

/-- C2: whatever the run outcome (success, pipeline-reported failure,
export failure, or an exception raised anywhere in the body), after the
worker's trace the Start button is enabled and the Stop button is
disabled, starting from any prior button state. -/
theorem C2_exit_path_resets_buttons (s : UIState) (env : Env) (b : ButtonState) :
    runButtons b (process_data s env) =
      { startEnabled := true, stopEnabled := false } := by
  unfold process_data
  simp [runButtons, List.foldl_append, applyEvent]

/-- C4: when the input path is unset or names no existing file, or the
output path is empty, `start_processing` leaves the UI state exactly as
it was and spawns no worker. -/
theorem C4_invalid_input_no_worker (s : UIState) (pathExists : String → Bool)
    (h : (pyFalsy s.input_file_path || !pathExists (s.input_file_path.getD "")
          || pyFalsy s.output_file_path) = true) :
    (start_processing s pathExists).1 = s ∧
    (start_processing s pathExists).2.1 = false := by
  unfold start_processing
  split
  · exact ⟨rfl, rfl⟩
  · split
    · exact ⟨rfl, rfl⟩
    · rename_i h1 h2
      rw [Bool.or_eq_true, Bool.or_eq_true] at h
      rcases h with (h | h) | h
      · exact absurd (Bool.or_eq_true _ _ |>.mpr (Or.inl h)) h1
      · exact absurd (Bool.or_eq_true _ _ |>.mpr (Or.inr h)) h1
      · exact absurd h h2

/-- Witness for C4: a state with no input path selected spawns no worker
and is returned unchanged. -/
theorem C4_invalid_input_no_worker_witness :
    (start_processing
      { input_file_path := none, output_file_path := some "/data/out.xlsx",
        selected_model := "mistralai/Mistral-7B-Instruct-v0.2", use_8bit := true,
        startEnabled := true, stopEnabled := false, progress := 0,
        resultsRows := [] } (fun _ => false)).1 =
      { input_file_path := none, output_file_path := some "/data/out.xlsx",
        selected_model := "mistralai/Mistral-7B-Instruct-v0.2", use_8bit := true,
        startEnabled := true, stopEnabled := false, progress := 0,
        resultsRows := [] } ∧
    (start_processing
      { input_file_path := none, output_file_path := some "/data/out.xlsx",
        selected_model := "mistralai/Mistral-7B-Instruct-v0.2", use_8bit := true,
        startEnabled := true, stopEnabled := false, progress := 0,
        resultsRows := [] } (fun _ => false)).2.1 = false :=
  C4_invalid_input_no_worker _ _ rfl

/-- C5: when the pipeline returns a result whose success flag is false,
the worker logs the failure, shows the error dialog, ends with progress
reset to 0, and the trace contains no exporter call and no rendering of
the results table. -/
theorem C5_pipeline_failure_skips_export (s : UIState) (env : Env)
    (res : ExtractionResults)
    (h1 : env.llmInit = none) (h2 : env.dataInit = none)
    (h3 : env.processExcel = Except.ok res) (h4 : res.success = some false) :
    Event.logError ("Failed to process Excel file: " ++ res.error.getD "Unknown error")
        ∈ process_data s env ∧
    Event.dialogError "Processing Error"
        ("Failed to process Excel file: " ++ res.error.getD "Unknown error")
        ∈ process_data s env ∧
    (progressValues (process_data s env)).getLast? = some 0 ∧
    (∀ r p, Event.exportCall r p ∉ process_data s env) ∧
    (∀ r, Event.renderResults r ∉ process_data s env) := by
  obtain ⟨llm, data, pe, ex⟩ := env
  simp only at h1 h2 h3
  subst h1
  subst h2
  subst h3
  unfold process_data tryBody
  simp [h4, progressValues]

/-- A Start click that passes validation produces exactly the
Running-transition state and events. -/
theorem start_processing_spawned (s : UIState) (pathExists : String → Bool)
    (h : (start_processing s pathExists).2.1 = true) :
    start_processing s pathExists =
      ({ s with startEnabled := false, stopEnabled := true, progress := 0,
                resultsRows := [] },
       true,
       [.setStartEnabled false, .setStopEnabled true, .progress 0,
        .clearRows, .progress 0]) := by
  unfold start_processing at h ⊢
  by_cases hA : (pyFalsy s.input_file_path
      || !pathExists (s.input_file_path.getD "")) = true
  · rw [if_pos hA] at h
    simp at h
  · rw [if_neg hA] at h ⊢
    by_cases hB : pyFalsy s.output_file_path = true
    · rw [if_pos hB] at h
      simp at h
    · rw [if_neg hB]

/-- One user-visible run: the events of the Start click followed, when a
worker was spawned, by the events of the worker running on the updated
state. -/
def runTrace (s : UIState) (pathExists : String → Bool) (env : Env) : List Event :=
  (start_processing s pathExists).2.2 ++
    (if (start_processing s pathExists).2.1 then
      process_data (start_processing s pathExists).1 env
    else [])

/-- Holds when the run reaches `process_excel` and that call returns a
result whose success flag is false (the pipeline-reported-failure
branch of the worker). -/
def pipelineFailureRun (env : Env) : Bool :=
  match env.llmInit, env.dataInit, env.processExcel with
  | none, none, .ok r =>
    match r.success with
    | some false => true
    | _ => false
  | _, _, _ => false

/-- The progress values the worker emits, by run outcome: 10/20/30 up to
the point an exception interrupts the body, 0 appended on
pipeline-reported failure, 80 then 100 on the export paths. -/
theorem progressValues_process_data (s : UIState) (env : Env) :
    progressValues (process_data s env) =
      match env.llmInit with
      | some _ => [10]
      | none =>
        match env.dataInit with
        | some _ => [10, 20]
        | none =>
          match env.processExcel with
          | .error _ => [10, 20, 30]
          | .ok r =>
            match r.success with
            | none => [10, 20, 30]
            | some false => [10, 20, 30, 0]
            | some true =>
              match env.exportExcel with
              | .error _ => [10, 20, 30, 80]
              | .ok _ => [10, 20, 30, 80, 100] := by
  obtain ⟨llm, data, pe, ex⟩ := env
  cases llm with
  | some msg => rfl
  | none =>
    cases data with
    | some msg => rfl
    | none =>
      cases pe with
      | error msg => rfl
      | ok r =>
        cases hsucc : r.success with
        | none => simp [process_data, tryBody, hsucc, progressValues]
        | some b =>
          cases b with
          | false => simp [process_data, tryBody, hsucc, progressValues]
          | true =>
            cases ex with
            | error msg => simp [process_data, tryBody, hsucc, progressValues]
            | ok ok_export =>
              cases ok_export with
              | false => simp [process_data, tryBody, hsucc, progressValues]
              | true => simp [process_data, tryBody, hsucc, progressValues]

/-- A concrete UI state with valid input and output paths selected. -/
def demoState : UIState :=
  { input_file_path := some "/data/in.xlsx",
    output_file_path := some "/data/out.xlsx",
    selected_model := "mistralai/Mistral-7B-Instruct-v0.2", use_8bit := true,
    startEnabled := true, stopEnabled := false, progress := 0, resultsRows := [] }

/-- A file-existence oracle under which every path exists. -/
def allPathsExist : String → Bool := fun _ => true

/-- The worked example of the spec: one element "Invoice Date" with one
successful and one failed document result. -/
def exampleResults : ExtractionResults :=
  { success := some true, error := none,
    results := some
      [{ element_name := some "Invoice Date",
         document_results := some
           [{ document_path := some "/a/inv1.xlsx", success := some true,
              extraction := some { value := some "2024-01-05",
                                   found := some true,
                                   confidence := some "0.92" },
              error := none },
            { document_path := some "/a/inv2.xlsx", success := some false,
              extraction := none, error := some "parse failed" }] }] }

/-- A run in which every external call succeeds and the exporter
returns true. -/
def envSuccess : Env :=
  { llmInit := none, dataInit := none,
    processExcel := .ok exampleResults, exportExcel := .ok true }

/-- A result dictionary reporting pipeline failure. -/
def failedResults : ExtractionResults :=
  { success := some false, error := some "parse failed", results := none }

/-- A run in which `process_excel` returns a failure result. -/
def envPipelineFailure : Env :=
  { llmInit := none, dataInit := none,
    processExcel := .ok failedResults, exportExcel := .ok true }

/-- Executable check that a list of naturals is monotonically
non-decreasing. -/
def nondecreasing : List Nat → Bool
  | a :: b :: rest => decide (a ≤ b) && nondecreasing (b :: rest)
  | _ => true

theorem nondecreasing_iff_chain (l : List Nat) :
    nondecreasing l = true ↔ List.Chain' (· ≤ ·) l := by
  match l with
  | [] => simp [nondecreasing]
  | [a] => simp [nondecreasing]
  | a :: b :: rest =>
    rw [List.chain'_cons, ← nondecreasing_iff_chain (b :: rest)]
    simp [nondecreasing]

/-- C3 (amended): progress is reset to 0 at the start of every run, and
the sequence of progress values is monotonically non-decreasing on every
run except the pipeline-reported-failure run, whose final progress
update resets the bar to 0; dropping that final reset the sequence is
non-decreasing. -/
theorem C3_progress_reset_and_monotone_unless_pipeline_failure
    (s : UIState) (pathExists : String → Bool) (env : Env)
    (hspawn : (start_processing s pathExists).2.1 = true) :
    (progressValues (runTrace s pathExists env)).head? = some 0 ∧
    (pipelineFailureRun env = false →
      List.Chain' (· ≤ ·) (progressValues (runTrace s pathExists env))) ∧
    (pipelineFailureRun env = true →
      (progressValues (runTrace s pathExists env)).getLast? = some 0 ∧
      List.Chain' (· ≤ ·) (progressValues (runTrace s pathExists env)).dropLast) := by
  have hst := start_processing_spawned s pathExists hspawn
  have key : progressValues (runTrace s pathExists env) =
      0 :: 0 :: progressValues (process_data
        { s with startEnabled := false, stopEnabled := true, progress := 0,
                 resultsRows := [] } env) := by
    unfold runTrace
    rw [hst]
    rfl
  rw [key, progressValues_process_data]
  obtain ⟨llm, data, pe, ex⟩ := env
  cases llm with
  | some msg =>
    exact ⟨rfl, fun _ => (nondecreasing_iff_chain _).mp rfl,
           fun hpf => Bool.noConfusion hpf⟩
  | none =>
    cases data with
    | some msg =>
      exact ⟨rfl, fun _ => (nondecreasing_iff_chain _).mp rfl,
             fun hpf => Bool.noConfusion hpf⟩
    | none =>
      cases pe with
      | error msg =>
        exact ⟨rfl, fun _ => (nondecreasing_iff_chain _).mp rfl,
               fun hpf => Bool.noConfusion hpf⟩
      | ok r =>
        obtain ⟨rsucc, rerror, rresults⟩ := r
        cases rsucc with
        | none =>
          exact ⟨rfl, fun _ => (nondecreasing_iff_chain _).mp rfl,
                 fun hpf => Bool.noConfusion hpf⟩
        | some b =>
          cases b with
          | false =>
            exact ⟨rfl, fun hpf => Bool.noConfusion hpf,
                   fun _ => ⟨rfl, (nondecreasing_iff_chain _).mp rfl⟩⟩
          | true =>
            cases ex with
            | error msg =>
              exact ⟨rfl, fun _ => (nondecreasing_iff_chain _).mp rfl,
                     fun hpf => Bool.noConfusion hpf⟩
            | ok eb =>
              exact ⟨rfl, fun _ => (nondecreasing_iff_chain _).mp rfl,
                     fun hpf => Bool.noConfusion hpf⟩

/-- Witness for the amended C3 on the all-successful run from a valid
concrete state. -/
theorem C3_progress_amended_witness :
    (start_processing demoState allPathsExist).2.1 = true ∧
    ((progressValues (runTrace demoState allPathsExist envSuccess)).head? = some 0 ∧
    (pipelineFailureRun envSuccess = false →
      List.Chain' (· ≤ ·) (progressValues (runTrace demoState allPathsExist envSuccess))) ∧
    (pipelineFailureRun envSuccess = true →
      (progressValues (runTrace demoState allPathsExist envSuccess)).getLast? = some 0 ∧
      List.Chain' (· ≤ ·)
        (progressValues (runTrace demoState allPathsExist envSuccess)).dropLast)) :=
  ⟨by decide,
   C3_progress_reset_and_monotone_unless_pipeline_failure demoState allPathsExist
     envSuccess (by decide)⟩

/-- Counterexample to C3 as stated: on the run whose extraction reports
failure, the progress values set are 0, 0, 10, 20, 30, 0 — the worker
resets the bar to 0 after reaching 30, so the sequence is not
monotonically non-decreasing. -/
theorem C3_counterexample_pipeline_failure_resets :
    progressValues (runTrace demoState allPathsExist envPipelineFailure) =
      [0, 0, 10, 20, 30, 0] ∧
    ¬ List.Chain' (· ≤ ·)
        (progressValues (runTrace demoState allPathsExist envPipelineFailure)) := by
  have h : progressValues (runTrace demoState allPathsExist envPipelineFailure) =
      [0, 0, 10, 20, 30, 0] := by decide
  refine ⟨h, fun hc => ?_⟩
  rw [h] at hc
  exact Bool.noConfusion ((nondecreasing_iff_chain _).mpr hc)

/-- C9 (code evaluation): on the fully successful run the PyQt6 worker's
own trace contains UI-widget mutations that are not marshaled through a
signal — the results-tree rebuild and the button setEnabled calls of the
finally block are direct widget calls from the worker thread, although
progress and log events do travel through signals. -/
theorem C9_worker_mutates_widgets_directly :
    Event.setStartEnabled true ∈ process_data demoState envSuccess ∧
    Event.renderResults exampleResults ∈ process_data demoState envSuccess ∧
    isUIMutation (Event.setStartEnabled true) = true ∧
    marshaled (Event.setStartEnabled true) = false ∧
    isUIMutation (Event.renderResults exampleResults) = true ∧
    marshaled (Event.renderResults exampleResults) = false := by
  refine ⟨?_, ?_, rfl, rfl, rfl, rfl⟩ <;> decide

/-- C7 (code evaluation): the Tkinter worker's constructor call is the
same whether the 8-bit checkbox is checked or not and carries no
use_8bit argument, while the PyQt6 worker's call does carry the
checkbox state. -/
theorem C7_tk_ctor_ignores_checkbox :
    tkProcessorCtorArgs
        { selected_model := "mistralai/Mistral-7B-Instruct-v0.2", use_8bit := true } =
      tkProcessorCtorArgs
        { selected_model := "mistralai/Mistral-7B-Instruct-v0.2", use_8bit := false } ∧
    (tkProcessorCtorArgs
        { selected_model := "mistralai/Mistral-7B-Instruct-v0.2",
          use_8bit := false }).use_8bit = none ∧
    (qtProcessorCtorArgs demoState).use_8bit = some demoState.use_8bit :=
  ⟨rfl, rfl, rfl⟩

/-- State of the file-selection panel: the stored path variables and the
text of the two read-only entry widgets. -/
structure FileSelectionState where
  input_file_path : Option String
  output_file_path : Option String
  input_entry : String
  output_entry : String
  deriving Repr, DecidableEq

/-- Embeds `browse_input_file` (pyqt6-document-extraction-ui.py lines
231-251) applied to the path the file dialog returned ("" = dialog
cancelled): stores the input path and entry text, and when the output
entry is still empty derives `<dir>/<stem>_results.xlsx` from the input
path and stores it as the output path. -/
def browse_input_file (s : FileSelectionState) (file_path : String) :
    FileSelectionState :=
  if file_path = "" then s
  else
    let s1 := { s with input_file_path := some file_path,
                       input_entry := file_path }
    if s1.output_entry = "" then
      let output_dir := dirname file_path
      let input_name := (splitext (basename file_path)).1
      let output_path := joinPath output_dir (input_name ++ "_results.xlsx")
      { s1 with output_file_path := some output_path,
                output_entry := output_path }
    else s1

/-- C8: choosing an input file when no output path is set stores the
auto-suggested output path — the input's directory joined with its stem
plus "_results.xlsx" — in particular /x/y/report.xlsx yields
/x/y/report_results.xlsx; when an output path is already set it is left
unchanged. -/
theorem C8_auto_suggest_output_path (s : FileSelectionState) (p : String)
    (hp : p ≠ "") :
    (s.output_entry = "" →
      (browse_input_file s p).output_file_path =
          some (joinPath (dirname p) ((splitext (basename p)).1 ++ "_results.xlsx")) ∧
      (browse_input_file s p).output_entry =
          joinPath (dirname p) ((splitext (basename p)).1 ++ "_results.xlsx")) ∧
    (s.output_entry ≠ "" →
      (browse_input_file s p).output_file_path = s.output_file_path ∧
      (browse_input_file s p).output_entry = s.output_entry) ∧
    (browse_input_file
        { input_file_path := none, output_file_path := none,
          input_entry := "", output_entry := "" } "/x/y/report.xlsx").output_entry =
      "/x/y/report_results.xlsx" := by
  refine ⟨fun h0 => ?_, fun h1 => ?_, ?_⟩
  · simp [browse_input_file, hp, h0]
  · simp [browse_input_file, hp, h1]
  · decide

/-- Witness for C8 from the empty state at the spec's example path. -/
theorem C8_auto_suggest_output_path_witness :
    ("/x/y/report.xlsx" : String) ≠ "" ∧
    (((⟨none, none, "", ""⟩ : FileSelectionState).output_entry = "" →
      (browse_input_file ⟨none, none, "", ""⟩ "/x/y/report.xlsx").output_file_path =
          some (joinPath (dirname "/x/y/report.xlsx")
            ((splitext (basename "/x/y/report.xlsx")).1 ++ "_results.xlsx")) ∧
      (browse_input_file ⟨none, none, "", ""⟩ "/x/y/report.xlsx").output_entry =
          joinPath (dirname "/x/y/report.xlsx")
            ((splitext (basename "/x/y/report.xlsx")).1 ++ "_results.xlsx")) ∧
    ((⟨none, none, "", ""⟩ : FileSelectionState).output_entry ≠ "" →
      (browse_input_file ⟨none, none, "", ""⟩ "/x/y/report.xlsx").output_file_path =
          (⟨none, none, "", ""⟩ : FileSelectionState).output_file_path ∧
      (browse_input_file ⟨none, none, "", ""⟩ "/x/y/report.xlsx").output_entry =
          (⟨none, none, "", ""⟩ : FileSelectionState).output_entry) ∧
    (browse_input_file
        { input_file_path := none, output_file_path := none,
          input_entry := "", output_entry := "" } "/x/y/report.xlsx").output_entry =
      "/x/y/report_results.xlsx") :=
  ⟨by decide,
   C8_auto_suggest_output_path ⟨none, none, "", ""⟩ "/x/y/report.xlsx" (by decide)⟩

/-- Witness for C5 at the concrete pipeline-failure run. -/
theorem C5_pipeline_failure_skips_export_witness :
    envPipelineFailure.llmInit = none ∧
    envPipelineFailure.dataInit = none ∧
    envPipelineFailure.processExcel = Except.ok failedResults ∧
    failedResults.success = some false ∧
    (Event.logError ("Failed to process Excel file: " ++
          failedResults.error.getD "Unknown error")
        ∈ process_data demoState envPipelineFailure ∧
      Event.dialogError "Processing Error"
          ("Failed to process Excel file: " ++ failedResults.error.getD "Unknown error")
        ∈ process_data demoState envPipelineFailure ∧
      (progressValues (process_data demoState envPipelineFailure)).getLast? = some 0 ∧
      (∀ r p, Event.exportCall r p ∉ process_data demoState envPipelineFailure) ∧
      (∀ r, Event.renderResults r ∉ process_data demoState envPipelineFailure)) :=
  ⟨rfl, rfl, rfl, rfl,
   C5_pipeline_failure_skips_export demoState envPipelineFailure failedResults
     rfl rfl rfl rfl⟩
